import Mathlib

/-!
Verification of the espresso suite manifest (`mx.espresso/suite.py`) against
its natural-language specification.  The manifest itself is pure data; it is
embedded below field by field.  The engine that interprets it (dependency
graph builder, platform overlay resolver, layout materializer) is not part of
the source tree, so those operations are modelled from the specification and
are marked as such in their doc comments.
-/

namespace Espresso

/-- A layout entry of a distribution, parsed into the tagged-variant form the
design notes prescribe for the token grammar
`dependency:<suite>:<name>[/<pattern>]` / `file:<path>`:
* `depRef s n` embeds the token `dependency:s:n`;
* `depGlob s n` embeds `dependency:s:n/*`;
* `depLib s n l` embeds `dependency:s:n/<lib:l>`;
* `fileRef p` embeds `file:p`. -/
inductive LayoutEntry where
  | depRef (suiteName name : String)
  | depGlob (suiteName name : String)
  | depLib (suiteName name libName : String)
  | fileRef (path : String)
  deriving DecidableEq, Repr

/-- The suite name and target name referenced by a layout entry, when the
entry is a dependency token. -/
def LayoutEntry.target : LayoutEntry → Option (String × String)
  | .depRef s n => some (s, n)
  | .depGlob s n => some (s, n)
  | .depLib s n _ => some (s, n)
  | .fileRef _ => none

/-- A leaf of an `os_arch` overlay table: the concrete configuration found at
one (os, arch) position.  Fields mirror the keys that occur in the manifest;
absent keys are the defaults. -/
structure OverlayLeaf where
  cflags : List String := []
  ldflags : List String := []
  ldlibs : List String := []
  toolchain : Option String := none
  ignore : Option String := none
  layout : List (String × List LayoutEntry) := []
  deriving DecidableEq, Repr

/-- An `os_arch` table: keyed first by operating system, then by
architecture; the literal key `"<others>"` is the wildcard at either level. -/
abbrev OverlaySpec : Type := List (String × List (String × OverlayLeaf))

/-- Exact-key lookup in an association list (first match wins, as in a
Python dict with unique keys). -/
def assocLookup {α : Type} : List (String × α) → String → Option α
  | [], _ => none
  | (k, v) :: rest, key => if k = key then some v else assocLookup rest key

/-- Modelled from the spec: one stage of overlay lookup selects a branch by
exact key match, else by the wildcard key `"<others>"` if present, else
fails. -/
def selectBranch {α : Type} (table : List (String × α)) (key : String) : Option α :=
  match assocLookup table key with
  | some v => some v
  | none => assocLookup table "<others>"

/-- Modelled from the spec: two-stage overlay lookup, os level then arch
level. -/
def selectLeaf (spec : OverlaySpec) (os arch : String) : Option OverlayLeaf :=
  match selectBranch spec os with
  | none => none
  | some branch => selectBranch branch arch

/-- Outcome of resolving an overlay table for a platform: a concrete
configuration, a declared "ignore this platform", or an
`OverlayResolutionError` (no matching branch and no wildcard). -/
inductive Resolution where
  | config (leaf : OverlayLeaf)
  | ignored (reason : String)
  | resolutionError
  deriving DecidableEq, Repr

/-- Modelled from the spec: `resolve(spec, os, arch)` — the Platform Overlay
Resolver, which is not part of the source tree.  Two-stage lookup with
wildcard fallback; a leaf declaring `"ignore"` is a normal non-error terminal
outcome; a missing branch is an error. -/
def resolve (spec : OverlaySpec) (os arch : String) : Resolution :=
  match selectLeaf spec os arch with
  | none => .resolutionError
  | some leaf =>
    match leaf.ignore with
    | some reason => .ignored reason
    | none => .config leaf

/-! ### The `os_arch` tables of the native projects, from `suite.py` -/

/-- `com.oracle.truffle.espresso.native` → `os_arch` (suite.py lines 273-291). -/
def nativeOsArch : OverlaySpec :=
  [ ("windows",
      [("<others>", { cflags := ["-Wall"] })]),
    ("linux-musl",
      [("<others>",
        { cflags := ["-Wall", "-Werror", "-Wno-error=cpp"],
          toolchain := some "sulong:SULONG_BOOTSTRAP_TOOLCHAIN" })]),
    ("<others>",
      [("<others>",
        { cflags := ["-Wall", "-Werror"],
          toolchain := some "sulong:SULONG_BOOTSTRAP_TOOLCHAIN" })]) ]

/-- The leaf of the `linux` branch of `com.oracle.truffle.espresso.eden`
(suite.py lines 302-310). -/
def edenLinuxLeaf : OverlayLeaf :=
  { cflags := ["-g", "-fPIC", "-Wall", "-Werror", "-D_GNU_SOURCE"],
    ldflags := ["-Wl,-soname,libeden.so"],
    ldlibs := ["-ldl"] }

/-- The ignore leaf that appears (twice, with identical content) under the
`linux-musl` and `"<others>"` branches of `com.oracle.truffle.espresso.eden`
(suite.py lines 311-321). -/
def edenIgnoreLeaf : OverlayLeaf :=
  { ignore := some "GNU Linux-only" }

/-- `com.oracle.truffle.espresso.eden` → `os_arch` (suite.py lines 301-321). -/
def edenOsArch : OverlaySpec :=
  [ ("linux", [("<others>", edenLinuxLeaf)]),
    ("linux-musl", [("<others>", edenIgnoreLeaf)]),
    ("<others>", [("<others>", edenIgnoreLeaf)]) ]

/-- `com.oracle.truffle.espresso.mokapot` → `os_arch`, `darwin` leaf
(suite.py lines 331-343). -/
def mokapotDarwinLeaf : OverlayLeaf :=
  { cflags := ["-Wall", "-Werror", "-std=c11"],
    ldflags :=
      [ "-Wl,-install_name,@rpath/libjvm.dylib",
        "-Wl,-rpath,@loader_path/.",
        "-Wl,-rpath,@loader_path/..",
        "-Wl,-current_version,1.0.0",
        "-Wl,-compatibility_version,1.0.0" ],
    toolchain := some "sulong:SULONG_BOOTSTRAP_TOOLCHAIN" }

/-- `com.oracle.truffle.espresso.mokapot` → `os_arch`, `linux` leaf
(suite.py lines 344-355). -/
def mokapotLinuxLeaf : OverlayLeaf :=
  { cflags := ["-Wall", "-Werror", "-g", "-std=c11", "-D_GNU_SOURCE"],
    ldflags :=
      [ "-Wl,-soname,libjvm.so",
        "-Wl,--version-script,<path:espresso:com.oracle.truffle.espresso.mokapot>/mapfile-vers",
        "-Wl,--undefined-version" ],
    toolchain := some "sulong:SULONG_BOOTSTRAP_TOOLCHAIN" }

/-- `com.oracle.truffle.espresso.mokapot` → `os_arch`, `linux-musl` leaf
(suite.py lines 356-367). -/
def mokapotLinuxMuslLeaf : OverlayLeaf :=
  { cflags := ["-Wall", "-Werror", "-Wno-error=cpp", "-g"],
    ldflags :=
      [ "-Wl,-soname,libjvm.so",
        "-Wl,--version-script,<path:espresso:com.oracle.truffle.espresso.mokapot>/mapfile-vers",
        "-Wl,--undefined-version" ],
    toolchain := some "sulong:SULONG_BOOTSTRAP_TOOLCHAIN" }

/-- `com.oracle.truffle.espresso.mokapot` → `os_arch`, `windows` leaf
(suite.py lines 368-372). -/
def mokapotWindowsLeaf : OverlayLeaf :=
  { cflags := ["-Wall"] }

/-- `com.oracle.truffle.espresso.mokapot` → `os_arch` (suite.py lines
330-373): four explicit OS branches, no wildcard OS branch. -/
def mokapotOsArch : OverlaySpec :=
  [ ("darwin", [("<others>", mokapotDarwinLeaf)]),
    ("linux", [("<others>", mokapotLinuxLeaf)]),
    ("linux-musl", [("<others>", mokapotLinuxMuslLeaf)]),
    ("windows", [("<others>", mokapotWindowsLeaf)]) ]

/-! ### Projects of the espresso suite, from `suite.py` -/

/-- A project entry of the manifest.  Only the fields the verified claims are
about are embedded: the name, the `dependencies` and `buildDependencies`
reference lists, the native `deliverable` name, and the `os_arch` table. -/
structure Project where
  name : String
  dependencies : List String := []
  buildDependencies : List String := []
  deliverable : Option String := none
  os_arch : OverlaySpec := []
  deriving DecidableEq, Repr

/-- `com.oracle.truffle.espresso.native` (suite.py lines 265-292): native
shared library with deliverable `nespresso`, a `buildDependencies` entry on
mokapot, and the `os_arch` table above. -/
def nativeProject : Project :=
  { name := "com.oracle.truffle.espresso.native",
    buildDependencies := ["com.oracle.truffle.espresso.mokapot"],
    deliverable := some "nespresso",
    os_arch := nativeOsArch }

/-- `com.oracle.truffle.espresso.eden` (suite.py lines 296-322): native
shared library with deliverable `eden`. -/
def edenProject : Project :=
  { name := "com.oracle.truffle.espresso.eden",
    deliverable := some "eden",
    os_arch := edenOsArch }

/-- `com.oracle.truffle.espresso.mokapot` (suite.py lines 325-374): native
shared library with deliverable `jvm`. -/
def mokapotProject : Project :=
  { name := "com.oracle.truffle.espresso.mokapot",
    deliverable := some "jvm",
    os_arch := mokapotOsArch }

/-- The `projects` table of the espresso suite (suite.py lines 86-407), with
each project's `dependencies` / `buildDependencies` lists verbatim. -/
def espressoProjects : List Project :=
  [ { name := "com.oracle.truffle.espresso.polyglot" },
    { name := "com.oracle.truffle.espresso.io" },
    { name := "com.oracle.truffle.espresso.hotswap" },
    { name := "org.graalvm.continuations" },
    { name := "com.oracle.truffle.espresso.classfile",
      dependencies := ["truffle:TRUFFLE_API"] },
    { name := "com.oracle.truffle.espresso.shared",
      dependencies := ["com.oracle.truffle.espresso.classfile"] },
    { name := "com.oracle.truffle.espresso",
      dependencies :=
        [ "truffle:TRUFFLE_API",
          "truffle:TRUFFLE_NFI",
          "com.oracle.truffle.espresso.jdwp",
          "com.oracle.truffle.espresso.shadowed.asm",
          "com.oracle.truffle.espresso.shared" ] },
    { name := "com.oracle.truffle.espresso.resources.libs",
      dependencies := ["truffle:TRUFFLE_API"] },
    { name := "com.oracle.truffle.espresso.processor" },
    { name := "com.oracle.truffle.espresso.launcher",
      dependencies := ["sdk:POLYGLOT", "sdk:LAUNCHER_COMMON"] },
    { name := "com.oracle.truffle.espresso.libjavavm",
      dependencies := ["sdk:POLYGLOT", "sdk:LAUNCHER_COMMON"] },
    { name := "com.oracle.truffle.espresso.jdwp",
      dependencies :=
        [ "com.oracle.truffle.espresso.classfile",
          "truffle:TRUFFLE_API",
          "truffle:TRUFFLE_NFI" ] },
    { name := "com.oracle.truffle.espresso.jvmci" },
    nativeProject,
    edenProject,
    mokapotProject,
    { name := "com.oracle.truffle.espresso.shadowed.asm" },
    { name := "espresso-legacy-nativeimage-properties" } ]

/-! ### Distributions of the espresso suite, from `suite.py` -/

/-- A distribution entry of the manifest: name, the `dependencies` and
`distDependencies` reference lists, the top-level `layout` (if any), the
`os_arch` table (whose leaves may carry platform-specific layouts), and the
`hashEntry` / `fileListEntry` manifest paths. -/
structure Distribution where
  name : String
  dependencies : List String := []
  distDependencies : List String := []
  layout : List (String × List LayoutEntry) := []
  os_arch : OverlaySpec := []
  platformDependent : Bool := false
  hashEntry : Option String := none
  fileListEntry : Option String := none
  platforms : List String := []
  deriving DecidableEq, Repr

/-- The layout shared by every branch of `ESPRESSO_LIBS_DIR`'s `os_arch`
table except `linux` (suite.py lines 530-561): the same entries as the
`linux` branch minus the eden library. -/
def espressoLibsDirCommonLayout : List (String × List LayoutEntry) :=
  [ ("META-INF/resources/java/espresso-libs/<os>/<arch>/lib/",
      [ .depLib "espresso" "com.oracle.truffle.espresso.native" "nespresso",
        .depLib "espresso" "com.oracle.truffle.espresso.mokapot" "jvm",
        .depRef "espresso" "ESPRESSO_POLYGLOT",
        .depRef "espresso" "HOTSWAP",
        .depRef "espresso" "CONTINUATIONS",
        .depRef "espresso" "ESPRESSO_JVMCI",
        .depRef "espresso" "ESPRESSO_IO" ]) ]

/-- The `linux` branch layout of `ESPRESSO_LIBS_DIR` (suite.py lines
513-529). -/
def espressoLibsDirLinuxLayout : List (String × List LayoutEntry) :=
  [ ("META-INF/resources/java/espresso-libs/<os>/<arch>/lib/",
      [ .depLib "espresso" "com.oracle.truffle.espresso.eden" "eden",
        .depLib "espresso" "com.oracle.truffle.espresso.native" "nespresso",
        .depLib "espresso" "com.oracle.truffle.espresso.mokapot" "jvm",
        .depRef "espresso" "ESPRESSO_POLYGLOT",
        .depRef "espresso" "HOTSWAP",
        .depRef "espresso" "CONTINUATIONS",
        .depRef "espresso" "ESPRESSO_JVMCI",
        .depRef "espresso" "ESPRESSO_IO" ]) ]

/-- `ESPRESSO_LIBS_DIR` → `os_arch` (suite.py lines 512-562). -/
def espressoLibsDirOsArch : OverlaySpec :=
  [ ("linux", [("<others>", { layout := espressoLibsDirLinuxLayout })]),
    ("linux-musl", [("<others>", { layout := espressoLibsDirCommonLayout })]),
    ("<others>", [("<others>", { layout := espressoLibsDirCommonLayout })]) ]

/-- The `linux` branch layout of `ESPRESSO_SUPPORT` (suite.py lines
571-589). -/
def espressoSupportLinuxLayout : List (String × List LayoutEntry) :=
  [ ("./native-image.properties",
      [.depRef "espresso" "espresso-legacy-nativeimage-properties"]),
    ("LICENSE_JAVAONTRUFFLE", [.fileRef "LICENSE"]),
    ("lib/",
      [ .depLib "espresso" "com.oracle.truffle.espresso.eden" "eden",
        .depLib "espresso" "com.oracle.truffle.espresso.native" "nespresso",
        .depLib "espresso" "com.oracle.truffle.espresso.mokapot" "jvm",
        .depGlob "espresso" "ESPRESSO_POLYGLOT",
        .depGlob "espresso" "HOTSWAP",
        .depGlob "espresso" "CONTINUATIONS",
        .depGlob "espresso" "ESPRESSO_JVMCI",
        .depRef "espresso" "ESPRESSO_IO" ]) ]

/-- The layout shared by the `linux-musl` and `"<others>"` branches of
`ESPRESSO_SUPPORT` (suite.py lines 590-625): the `linux` entries minus the
eden library. -/
def espressoSupportCommonLayout : List (String × List LayoutEntry) :=
  [ ("./native-image.properties",
      [.depRef "espresso" "espresso-legacy-nativeimage-properties"]),
    ("LICENSE_JAVAONTRUFFLE", [.fileRef "LICENSE"]),
    ("lib/",
      [ .depLib "espresso" "com.oracle.truffle.espresso.native" "nespresso",
        .depLib "espresso" "com.oracle.truffle.espresso.mokapot" "jvm",
        .depGlob "espresso" "ESPRESSO_POLYGLOT",
        .depGlob "espresso" "HOTSWAP",
        .depGlob "espresso" "CONTINUATIONS",
        .depGlob "espresso" "ESPRESSO_JVMCI",
        .depRef "espresso" "ESPRESSO_IO" ]) ]

/-- `ESPRESSO_SUPPORT` → `os_arch` (suite.py lines 570-626). -/
def espressoSupportOsArch : OverlaySpec :=
  [ ("linux", [("<others>", { layout := espressoSupportLinuxLayout })]),
    ("linux-musl", [("<others>", { layout := espressoSupportCommonLayout })]),
    ("<others>", [("<others>", { layout := espressoSupportCommonLayout })]) ]

/-- `ESPRESSO_LIBS_DIR` (suite.py lines 500-564): platform-dependent `dir`
distribution with `hashEntry`, `fileListEntry`, a `platforms` list and the
`os_arch` table above — and no `dependencies` or `distDependencies` key. -/
def espressoLibsDirDist : Distribution :=
  { name := "ESPRESSO_LIBS_DIR",
    platformDependent := true,
    hashEntry := some "META-INF/resources/java/espresso-libs/<os>/<arch>/sha256",
    fileListEntry := some "META-INF/resources/java/espresso-libs/<os>/<arch>/files",
    platforms :=
      [ "linux-amd64", "linux-aarch64", "darwin-amd64", "darwin-aarch64",
        "windows-amd64" ],
    os_arch := espressoLibsDirOsArch }

/-- `ESPRESSO_SUPPORT` (suite.py lines 566-628): platform-dependent native
support distribution with the `os_arch` table above — and no `dependencies`
or `distDependencies` key. -/
def espressoSupportDist : Distribution :=
  { name := "ESPRESSO_SUPPORT",
    platformDependent := true,
    os_arch := espressoSupportOsArch }

/-- The `distributions` table of the espresso suite (suite.py lines 411-723),
with each distribution's `dependencies` / `distDependencies` lists verbatim. -/
def espressoDistributions : List Distribution :=
  [ { name := "ESPRESSO",
      dependencies := ["com.oracle.truffle.espresso"],
      distDependencies := ["truffle:TRUFFLE_API", "truffle:TRUFFLE_NFI"] },
    { name := "ESPRESSO_LAUNCHER",
      dependencies := ["com.oracle.truffle.espresso.launcher"],
      distDependencies := ["sdk:POLYGLOT", "sdk:LAUNCHER_COMMON"] },
    { name := "LIB_JAVAVM",
      dependencies := ["com.oracle.truffle.espresso.libjavavm"],
      distDependencies := ["sdk:POLYGLOT", "sdk:LAUNCHER_COMMON"] },
    { name := "ESPRESSO_PROCESSOR",
      dependencies := ["com.oracle.truffle.espresso.processor"] },
    { name := "ESPRESSO_LIBS_RESOURCES",
      platformDependent := true,
      distDependencies := ["truffle:TRUFFLE_API"],
      dependencies :=
        ["com.oracle.truffle.espresso.resources.libs", "ESPRESSO_LIBS_DIR"] },
    espressoLibsDirDist,
    espressoSupportDist,
    { name := "ESPRESSO_JVM_SUPPORT",
      platformDependent := true,
      layout :=
        [("truffle/",
          [.depLib "espresso" "com.oracle.truffle.espresso.mokapot" "jvm"])] },
    { name := "ESPRESSO_IO",
      dependencies := ["com.oracle.truffle.espresso.io"] },
    { name := "ESPRESSO_POLYGLOT",
      dependencies := ["com.oracle.truffle.espresso.polyglot"] },
    { name := "HOTSWAP",
      dependencies := ["com.oracle.truffle.espresso.hotswap"] },
    { name := "CONTINUATIONS",
      dependencies := ["org.graalvm.continuations"] },
    { name := "ESPRESSO_JVMCI",
      dependencies := ["com.oracle.truffle.espresso.jvmci"] } ]

/-! ### The reference graph and the Dependency Graph Builder -/

/-- The reference graph of the espresso manifest: every project and
distribution, paired with the concatenation of its `dependencies`,
`distDependencies` and `buildDependencies` reference lists (projects declare
no `distDependencies`, distributions no `buildDependencies`). -/
def referenceGraph : List (String × List String) :=
  espressoProjects.map (fun p => (p.name, p.dependencies ++ p.buildDependencies))
    ++ espressoDistributions.map (fun d => (d.name, d.dependencies ++ d.distDependencies))

/-- The node names of the reference graph. -/
def graphNodes : List String := referenceGraph.map Prod.fst

/-- The references of a named node that stay inside the espresso suite
(references such as `truffle:TRUFFLE_API` target imported suites and are
leaves of this graph). -/
def internalRefsOf (adj : List (String × List String)) (n : String) : List String :=
  ((assocLookup adj n).getD []).filter (fun d => (adj.map Prod.fst).contains d)

/-- Direct dependency edge of the reference graph: `dependsOn a b` holds when
`a` lists `b` (a node of the espresso suite) among its references. -/
def dependsOn (a b : String) : Prop := b ∈ internalRefsOf referenceGraph a

instance (a b : String) : Decidable (dependsOn a b) := by
  unfold dependsOn; infer_instance

/-- Lexicographic comparison of character lists, by code point. -/
def charListLt : List Char → List Char → Bool
  | [], [] => false
  | [], _ :: _ => true
  | _ :: _, [] => false
  | a :: as, b :: bs =>
    if a.val < b.val then true else if b.val < a.val then false else charListLt as bs

/-- Lexicographic name comparison, used to break scheduling ties. -/
def strLt (a b : String) : Bool := charListLt a.toList b.toList

/-- The lexicographically least name of a list, if any. -/
def leastName : List String → Option String
  | [] => none
  | x :: xs => some (xs.foldl (fun m y => if strLt y m then y else m) x)

/-- One readiness round of the builder: the nodes of `remaining` all of whose
internal references have already been scheduled (references to other suites
are external and never block). -/
def readyNodes (adj : List (String × List String)) (remaining : List String) : List String :=
  remaining.filter fun n =>
    ((assocLookup adj n).getD []).all fun d =>
      !((adj.map Prod.fst).contains d && remaining.contains d)

/-- Modelled from the spec: the scheduling loop of the Dependency Graph
Builder (§4.2), which is not part of the source tree.  Repeatedly emits the
lexicographically least ready node; if no node is ready while some remain, a
cycle exists and the run fails (`none`, standing for
`CyclicDependencyError`). -/
def buildOrderAux (adj : List (String × List String)) :
    Nat → List String → List String → Option (List String)
  | 0, remaining, acc => if remaining.isEmpty then some acc.reverse else none
  | fuel + 1, remaining, acc =>
    if remaining.isEmpty then some acc.reverse
    else
      match leastName (readyNodes adj remaining) with
      | none => none
      | some n => buildOrderAux adj fuel (remaining.erase n) (n :: acc)

/-- Modelled from the spec: `build` of the Dependency Graph Builder —
produces the deterministic topological build order of a reference graph, or
`none` on a cycle (`CyclicDependencyError`). -/
def buildOrder (adj : List (String × List String)) : Option (List String) :=
  buildOrderAux adj adj.length (adj.map Prod.fst) []

/-- Index of a name in a list (length of the list when absent). -/
def idxOf (x : String) : List String → Nat
  | [] => 0
  | y :: ys => if y = x then 0 else idxOf x ys + 1

/-- `order` respects the internal dependency edges of `adj`: every node's
internal references appear strictly earlier in `order`. -/
def topoRespects (adj : List (String × List String)) (order : List String) : Bool :=
  adj.all fun p =>
    (p.2.filter (fun d => (adj.map Prod.fst).contains d)).all fun d =>
      idxOf d order < idxOf p.1 order

/-- `order` enumerates exactly the nodes of `adj`. -/
def coversNodes (adj : List (String × List String)) (order : List String) : Bool :=
  (adj.map Prod.fst).all (fun n => order.contains n) &&
    order.length == (adj.map Prod.fst).length

/-! ### Layout tokens and the Layout Materializer -/

/-- All layouts of a distribution: the top-level `layout` plus the layouts of
every leaf of its `os_arch` table. -/
def distLayouts (d : Distribution) : List (String × List LayoutEntry) :=
  d.layout ++ d.os_arch.flatMap fun b => b.2.flatMap fun a => a.2.layout

/-- The (suite, name) pairs referenced by `dependency:` tokens anywhere in a
distribution's layouts. -/
def layoutTargets (d : Distribution) : List (String × String) :=
  (distLayouts d).flatMap fun pe => pe.2.filterMap LayoutEntry.target

/-- The references a distribution declares: its `dependencies` plus its
`distDependencies`. -/
def declaredRefs (d : Distribution) : List String :=
  d.dependencies ++ d.distDependencies

/-- Whether every `dependency:` layout token of `d` names an entry of `d`'s
declared dependency list (`dependencies` plus `distDependencies`). -/
def layoutTokensDeclared (d : Distribution) : Bool :=
  (layoutTargets d).all fun t => (declaredRefs d).contains t.2

/-- All project and distribution names declared by the espresso suite. -/
def suiteNames : List String :=
  espressoProjects.map Project.name ++ espressoDistributions.map Distribution.name

/-- Modelled from the spec: the platform shared-library filename conventions
the Layout Materializer applies to a `<lib:name>` token — `lib<name>.so` on
Linux flavours, `<name>.dll` on Windows, `lib<name>.dylib` on Darwin. -/
def libFilename (os name : String) : String :=
  if os = "windows" then name ++ ".dll"
  else if os = "darwin" then "lib" ++ name ++ ".dylib"
  else "lib" ++ name ++ ".so"

/-- Whether `pat` is a prefix of `s`, character by character. -/
def listStartsWith : List Char → List Char → Bool
  | [], _ => true
  | _ :: _, [] => false
  | p :: ps, c :: cs => p == c && listStartsWith ps cs

/-- Replace every occurrence of `pat` by `repl` in a character list, with a
step budget (each step consumes at least one character, so a budget of the
list's length is exact). -/
def replaceAllFuel (pat repl : List Char) : Nat → List Char → List Char
  | _, [] => []
  | 0, s => s
  | fuel + 1, c :: cs =>
    if listStartsWith pat (c :: cs) then
      repl ++ replaceAllFuel pat repl fuel (List.drop (pat.length - 1) cs)
    else c :: replaceAllFuel pat repl fuel cs

/-- Replace every occurrence of `pat` by `repl` in a character list. -/
def replaceAll (pat repl s : List Char) : List Char :=
  replaceAllFuel pat repl s.length s

/-- Modelled from the spec: substitution of the `<os>` and `<arch>` template
placeholders of an output path pattern by the resolved platform. -/
def substPlatform (s os arch : String) : String :=
  ⟨replaceAll "<arch>".toList arch.toList
    (replaceAll "<os>".toList os.toList s.toList)⟩

/-- Modelled from the spec: the filename a layout entry contributes for a
platform when it is a `<lib:name>` token — the os-specific shared-library
filename of `name`. -/
def entryFilename (os : String) : LayoutEntry → Option String
  | .depLib _ _ libName => some (libFilename os libName)
  | _ => none

/-- Modelled from the spec: the shared-library files the Layout Materializer
writes for an `os_arch` distribution at a platform — each output directory
pattern with `<os>`/`<arch>` substituted, paired with the expanded
`<lib:...>` filename of each of its entries. -/
def materializedLibFiles (spec : OverlaySpec) (os arch : String) :
    List (String × String) :=
  match selectLeaf spec os arch with
  | none => []
  | some leaf =>
    leaf.layout.flatMap fun pe =>
      (pe.2.filterMap (entryFilename os)).map fun f =>
        (substPlatform pe.1 os arch, f)

/-- Modelled from the spec: the per-distribution manifest locations the
Layout Materializer persists — the content-hash manifest at
`<distribution-root>/sha256` and the file list at
`<distribution-root>/files`. -/
def manifestLocations (root : String) : String × String :=
  (root ++ "/sha256", root ++ "/files")

/-- Whether every OS-level branch of an overlay table has the wildcard
`"<others>"` as its only architecture key. -/
def wildcardOnlyArches (spec : OverlaySpec) : Bool :=
  spec.all fun b => b.2.map Prod.fst == ["<others>"]

/-- The build order of the espresso reference graph, as produced by
`buildOrder referenceGraph` (proved below): a topological order of all 31
projects and distributions, ties broken lexicographically. -/
def espressoBuildOrder : List String :=
  [ "ESPRESSO_JVM_SUPPORT", "ESPRESSO_LIBS_DIR", "ESPRESSO_SUPPORT",
    "com.oracle.truffle.espresso.classfile", "com.oracle.truffle.espresso.eden",
    "com.oracle.truffle.espresso.hotswap", "HOTSWAP",
    "com.oracle.truffle.espresso.io", "ESPRESSO_IO",
    "com.oracle.truffle.espresso.jdwp", "com.oracle.truffle.espresso.jvmci",
    "ESPRESSO_JVMCI", "com.oracle.truffle.espresso.launcher",
    "ESPRESSO_LAUNCHER", "com.oracle.truffle.espresso.libjavavm", "LIB_JAVAVM",
    "com.oracle.truffle.espresso.mokapot", "com.oracle.truffle.espresso.native",
    "com.oracle.truffle.espresso.polyglot", "ESPRESSO_POLYGLOT",
    "com.oracle.truffle.espresso.processor", "ESPRESSO_PROCESSOR",
    "com.oracle.truffle.espresso.resources.libs", "ESPRESSO_LIBS_RESOURCES",
    "com.oracle.truffle.espresso.shadowed.asm",
    "com.oracle.truffle.espresso.shared", "com.oracle.truffle.espresso",
    "ESPRESSO", "espresso-legacy-nativeimage-properties",
    "org.graalvm.continuations", "CONTINUATIONS" ]

/-! ### Helper lemmas -/

theorem assocLookup_mem_pair {α : Type} {t : List (String × α)} {k : String}
    {v : α} (h : assocLookup t k = some v) : (k, v) ∈ t := by
  induction t with
  | nil => simp [assocLookup] at h
  | cons p rest ih =>
    obtain ⟨k', v'⟩ := p
    by_cases hk : k' = k
    · subst hk
      have he : assocLookup ((k', v') :: rest) k' = some v' := by
        simp [assocLookup]
      rw [he] at h
      cases h
      exact List.mem_cons_self _ _
    · simp only [assocLookup, if_neg hk] at h
      exact List.mem_cons_of_mem _ (ih h)

theorem selectBranch_mem {α : Type} {t : List (String × α)} {k : String}
    {v : α} (h : selectBranch t k = some v) : v ∈ t.map Prod.snd := by
  unfold selectBranch at h
  cases h1 : assocLookup t k with
  | some w =>
    rw [h1] at h
    cases h
    exact List.mem_map.mpr ⟨_, assocLookup_mem_pair h1, rfl⟩
  | none =>
    rw [h1] at h
    exact List.mem_map.mpr ⟨_, assocLookup_mem_pair h, rfl⟩

theorem selectBranch_singleton_wildcard {α : Type} (x : α) (a : String) :
    selectBranch [("<others>", x)] a = some x := by
  by_cases h : ("<others>" : String) = a <;> simp [selectBranch, assocLookup, h]

theorem selectBranch_wildcardOnly {spec : OverlaySpec}
    (h : wildcardOnlyArches spec = true) {os : String}
    {branch : List (String × OverlayLeaf)}
    (hsel : selectBranch spec os = some branch) :
    ∃ leaf, branch = [("<others>", leaf)] := by
  have hb : branch ∈ spec.map Prod.snd := selectBranch_mem hsel
  obtain ⟨p, hp, hpe⟩ := List.mem_map.mp hb
  have hkeys : branch.map Prod.fst = ["<others>"] := by
    have := (List.all_eq_true.mp h) _ hp
    rw [hpe] at this
    simpa using this
  cases branch with
  | nil => simp at hkeys
  | cons q rest =>
    cases rest with
    | nil =>
      obtain ⟨k, x⟩ := q
      simp only [List.map_cons, List.map_nil, List.cons.injEq, and_true] at hkeys
      exact ⟨x, by rw [hkeys]⟩
    | cons r rs => simp at hkeys

theorem selectLeaf_of_wildcardOnly {spec : OverlaySpec}
    (h : wildcardOnlyArches spec = true) {os : String}
    {branch : List (String × OverlayLeaf)}
    (hsel : selectBranch spec os = some branch) (arch : String) :
    ∃ leaf, branch = [("<others>", leaf)] ∧ selectLeaf spec os arch = some leaf := by
  obtain ⟨leaf, hleaf⟩ := selectBranch_wildcardOnly h hsel
  refine ⟨leaf, hleaf, ?_⟩
  unfold selectLeaf
  rw [hsel, hleaf]
  exact selectBranch_singleton_wildcard leaf arch

theorem resolve_arch_independent {spec : OverlaySpec}
    (h : wildcardOnlyArches spec = true) :
    ∀ os a1 a2, resolve spec os a1 = resolve spec os a2 := by
  intro os a1 a2
  unfold resolve
  cases hsel : selectBranch spec os with
  | none =>
    unfold selectLeaf
    rw [hsel]
  | some branch =>
    obtain ⟨leaf, hbr, h1⟩ := selectLeaf_of_wildcardOnly h hsel a1
    obtain ⟨leaf', hbr', h2⟩ := selectLeaf_of_wildcardOnly h hsel a2
    rw [hbr] at hbr'
    simp only [List.cons.injEq, Prod.mk.injEq, and_true, true_and] at hbr'
    subst hbr'
    rw [h1, h2]

theorem selectLeaf_isSome_eq {spec : OverlaySpec}
    (h : wildcardOnlyArches spec = true) :
    ∀ os arch, (selectLeaf spec os arch).isSome = (selectBranch spec os).isSome := by
  intro os arch
  cases hsel : selectBranch spec os with
  | none =>
    unfold selectLeaf
    rw [hsel]
    rfl
  | some branch =>
    obtain ⟨leaf, -, h1⟩ := selectLeaf_of_wildcardOnly h hsel arch
    rw [h1]
    rfl

theorem no_cycle_of_rank {r : String → String → Prop} (rank : String → Nat)
    (h : ∀ a b, r a b → rank b < rank a) (n : String) :
    ¬ Relation.TransGen r n n := by
  intro hcyc
  have key : ∀ a b, Relation.TransGen r a b → rank b < rank a := by
    intro a b hab
    induction hab with
    | single h1 => exact h _ _ h1
    | tail _ h2 ih => exact lt_trans (h _ _ h2) ih
  exact absurd (key n n hcyc) (lt_irrefl _)

theorem topoRespects_spec {adj : List (String × List String)}
    {order : List String} (h : topoRespects adj order = true) {a b : String}
    (hab : b ∈ internalRefsOf adj a) : idxOf b order < idxOf a order := by
  unfold internalRefsOf at hab
  cases hl : assocLookup adj a with
  | none => rw [hl] at hab; simp at hab
  | some l =>
    rw [hl] at hab
    simp only [Option.getD_some] at hab
    have hmem : (a, l) ∈ adj := assocLookup_mem_pair hl
    have h' := (List.all_eq_true.mp h) _ hmem
    have := (List.all_eq_true.mp h') _ hab
    simpa using this

theorem assocLookup_eq_none {α : Type} {t : List (String × α)} {k : String}
    (h : ∀ p ∈ t, p.1 ≠ k) : assocLookup t k = none := by
  induction t with
  | nil => rfl
  | cons p rest ih =>
    obtain ⟨k', v'⟩ := p
    simp only [assocLookup]
    rw [if_neg (h _ (List.mem_cons_self _ _))]
    exact ih fun q hq => h q (List.mem_cons_of_mem _ hq)

theorem resolve_singleton_config {spec : OverlaySpec} {os : String}
    {leaf : OverlayLeaf}
    (hsel : selectBranch spec os = some [("<others>", leaf)])
    (hig : leaf.ignore = none) (arch : String) :
    resolve spec os arch = .config leaf := by
  unfold resolve selectLeaf
  simp only [hsel, selectBranch_singleton_wildcard, hig]

theorem resolve_singleton_ignored {spec : OverlaySpec} {os : String}
    {leaf : OverlayLeaf} {reason : String}
    (hsel : selectBranch spec os = some [("<others>", leaf)])
    (hig : leaf.ignore = some reason) (arch : String) :
    resolve spec os arch = .ignored reason := by
  unfold resolve selectLeaf
  simp only [hsel, selectBranch_singleton_wildcard, hig]

set_option maxHeartbeats 4000000 in
theorem buildOrder_referenceGraph_eq :
    buildOrder referenceGraph = some espressoBuildOrder := by decide

theorem topoRespects_espresso :
    topoRespects referenceGraph espressoBuildOrder = true := by decide

/-! ### The verified claims -/

/-- C1: the reference graph formed by the `dependencies`, `distDependencies`
and `buildDependencies` fields over all projects and distributions of the
espresso manifest is acyclic — `build()` of the Dependency Graph Builder
succeeds on it (no `CyclicDependencyError`, modelled by `none`), and no
entity transitively depends on itself. -/
theorem espresso_reference_graph_acyclic :
    (buildOrder referenceGraph).isSome = true ∧
      ∀ n, ¬ Relation.TransGen dependsOn n n := by
  refine ⟨by rw [buildOrder_referenceGraph_eq]; rfl, fun n => ?_⟩
  apply no_cycle_of_rank (fun s => idxOf s espressoBuildOrder)
  intro a b hab
  exact topoRespects_spec topoRespects_espresso hab

/-- C1 witness: the acyclicity statement instantiated at a concrete node. -/
theorem espresso_reference_graph_acyclic_witness :
    ¬ Relation.TransGen dependsOn "com.oracle.truffle.espresso"
      "com.oracle.truffle.espresso" :=
  espresso_reference_graph_acyclic.2 "com.oracle.truffle.espresso"

/-- C2 counterexample: `ESPRESSO_SUPPORT` declares no `dependencies` and no
`distDependencies` at all, yet its layout references
`com.oracle.truffle.espresso.eden` via a `dependency:espresso:` token — so
the token's target is not reachable through the distribution's declared
dependency list and the claim as stated is false. -/
theorem layout_tokens_escape_declared_deps :
    espressoSupportDist ∈ espressoDistributions ∧
    ("espresso", "com.oracle.truffle.espresso.eden") ∈
      layoutTargets espressoSupportDist ∧
    declaredRefs espressoSupportDist = [] ∧
    layoutTokensDeclared espressoSupportDist = false := by decide

/-- C2 amended: every `dependency:` layout token of every espresso
distribution names suite `espresso` and a name that exists among the
manifest's own projects and distributions (but not necessarily one listed in
the referencing distribution's `dependencies`/`distDependencies`, which are
empty for `ESPRESSO_SUPPORT`, `ESPRESSO_LIBS_DIR` and
`ESPRESSO_JVM_SUPPORT`); in particular the eight names of the claim are all
referenced by both `ESPRESSO_SUPPORT` and `ESPRESSO_LIBS_DIR`. -/
theorem layout_tokens_reference_suite_entries :
    (espressoDistributions.all fun d =>
      (layoutTargets d).all fun t =>
        t.1 == "espresso" && suiteNames.contains t.2) = true ∧
    ([ "com.oracle.truffle.espresso.eden", "com.oracle.truffle.espresso.native",
       "com.oracle.truffle.espresso.mokapot", "ESPRESSO_POLYGLOT", "HOTSWAP",
       "CONTINUATIONS", "ESPRESSO_JVMCI", "ESPRESSO_IO" ].all fun n =>
        ((layoutTargets espressoSupportDist).map Prod.snd).contains n &&
        ((layoutTargets espressoLibsDirDist).map Prod.snd).contains n) = true := by
  decide

/-- C3: on the eden `os_arch` table, resolution for `(darwin, arm64)` falls
through to the `"<others>"`/`"<others>"` leaf, while resolution for
`(linux, amd64)` selects the `linux` branch's leaf, the one carrying
`cflags`, `ldflags` and `ldlibs`. -/
theorem eden_overlay_wildcard_fallthrough :
    selectLeaf edenOsArch "darwin" "arm64" =
      selectLeaf edenOsArch "<others>" "<others>" ∧
    selectLeaf edenOsArch "darwin" "arm64" = some edenIgnoreLeaf ∧
    selectLeaf edenOsArch "linux" "amd64" = some edenLinuxLeaf ∧
    resolve edenOsArch "linux" "amd64" = .config edenLinuxLeaf ∧
    edenLinuxLeaf.cflags = ["-g", "-fPIC", "-Wall", "-Werror", "-D_GNU_SOURCE"] ∧
    edenLinuxLeaf.ldflags = ["-Wl,-soname,libeden.so"] ∧
    edenLinuxLeaf.ldlibs = ["-ldl"] := by decide

/-- C4: resolving the native project's `os_arch` table for `windows` (any
architecture) yields exactly the matched leaf — `cflags = ["-Wall"]`, no
`toolchain` — with nothing inherited from the `"<others>"` wildcard branch,
whose leaf does declare the sulong toolchain. -/
theorem native_windows_leaf_not_merged :
    (∀ arch, resolve nativeOsArch "windows" arch =
      .config { cflags := ["-Wall"] }) ∧
    ({ cflags := ["-Wall"] } : OverlayLeaf).toolchain = none ∧
    selectLeaf nativeOsArch "<others>" "<others>" =
      some { cflags := ["-Wall", "-Werror"],
             toolchain := some "sulong:SULONG_BOOTSTRAP_TOOLCHAIN" } := by
  refine ⟨fun arch => resolve_singleton_config (by decide) (by decide) arch,
    rfl, by decide⟩

/-- C5: resolving the eden `os_arch` table for any operating system other
than exactly `linux` yields the Ignored outcome with reason
"GNU Linux-only" — a normal terminal result, not an
`OverlayResolutionError`. -/
theorem eden_nonlinux_is_ignored (os : String) (h : os ≠ "linux")
    (arch : String) :
    resolve edenOsArch os arch = .ignored "GNU Linux-only" := by
  have hsel : selectBranch edenOsArch os = some [("<others>", edenIgnoreLeaf)] := by
    by_cases h2 : os = "linux-musl"
    · subst h2; rfl
    · by_cases h3 : os = "<others>"
      · subst h3; rfl
      · have hne : assocLookup edenOsArch os = none := by
          apply assocLookup_eq_none
          intro p hp
          fin_cases hp
          · exact fun hh => h hh.symm
          · exact fun hh => h2 hh.symm
          · exact fun hh => h3 hh.symm
        unfold selectBranch
        rw [hne]
        rfl
  exact resolve_singleton_ignored hsel rfl arch

/-- C5 witness: the statement at the concrete platform `(darwin, arm64)`. -/
theorem eden_nonlinux_is_ignored_witness :
    resolve edenOsArch "darwin" "arm64" = .ignored "GNU Linux-only" :=
  eden_nonlinux_is_ignored "darwin" (by decide) "arm64"

/-- C6: the mokapot `os_arch` table has no OS-level wildcard, so resolution
fails with `OverlayResolutionError` for every operating system outside
{darwin, linux, linux-musl, windows}; for each of those four, resolution
succeeds (a concrete config) for every architecture via the branch's
`"<others>"` arch key. -/
theorem mokapot_resolution_by_os (os arch : String) :
    (os ∉ ["darwin", "linux", "linux-musl", "windows"] →
      resolve mokapotOsArch os arch = .resolutionError) ∧
    (os ∈ ["darwin", "linux", "linux-musl", "windows"] →
      ∃ leaf, resolve mokapotOsArch os arch = .config leaf) := by
  constructor
  · intro h
    simp only [List.mem_cons, List.not_mem_nil, or_false, not_or] at h
    obtain ⟨h1, h2, h3, h4⟩ := h
    have e1 : assocLookup mokapotOsArch os = none := by
      apply assocLookup_eq_none
      intro p hp
      fin_cases hp
      · exact fun hh => h1 hh.symm
      · exact fun hh => h2 hh.symm
      · exact fun hh => h3 hh.symm
      · exact fun hh => h4 hh.symm
    have hsel : selectBranch mokapotOsArch os = none := by
      unfold selectBranch
      rw [e1]
      rfl
    unfold resolve selectLeaf
    rw [hsel]
  · intro h
    simp only [List.mem_cons, List.not_mem_nil, or_false] at h
    rcases h with h | h | h | h <;> subst h
    · exact ⟨mokapotDarwinLeaf, resolve_singleton_config (by decide) rfl arch⟩
    · exact ⟨mokapotLinuxLeaf, resolve_singleton_config (by decide) rfl arch⟩
    · exact ⟨mokapotLinuxMuslLeaf, resolve_singleton_config (by decide) rfl arch⟩
    · exact ⟨mokapotWindowsLeaf, resolve_singleton_config (by decide) rfl arch⟩

/-- C6 witness: the statement at the concrete operating systems `solaris`
(error) and `darwin` (success). -/
theorem mokapot_resolution_by_os_witness :
    resolve mokapotOsArch "solaris" "sparcv9" = .resolutionError ∧
    ∃ leaf, resolve mokapotOsArch "darwin" "aarch64" = .config leaf :=
  ⟨(mokapot_resolution_by_os "solaris" "sparcv9").1 (by decide),
   (mokapot_resolution_by_os "darwin" "aarch64").2 (by decide)⟩

/-- C7: materializing `ESPRESSO_LIBS_DIR` for `(linux, amd64)` expands the
three `<lib:...>` tokens to `libeden.so`, `libnespresso.so` and `libjvm.so`,
written into `META-INF/resources/java/espresso-libs/linux/amd64/lib/` (the
output pattern with `<os>`/`<arch>` substituted); the token names match the
`deliverable` fields of the eden, native and mokapot projects. -/
theorem libsdir_linux_lib_expansion :
    materializedLibFiles espressoLibsDirOsArch "linux" "amd64" =
      [ ("META-INF/resources/java/espresso-libs/linux/amd64/lib/", "libeden.so"),
        ("META-INF/resources/java/espresso-libs/linux/amd64/lib/", "libnespresso.so"),
        ("META-INF/resources/java/espresso-libs/linux/amd64/lib/", "libjvm.so") ] ∧
    edenProject.deliverable = some "eden" ∧
    nativeProject.deliverable = some "nespresso" ∧
    mokapotProject.deliverable = some "jvm" ∧
    libFilename "linux" "eden" = "libeden.so" ∧
    libFilename "linux" "nespresso" = "libnespresso.so" ∧
    libFilename "linux" "jvm" = "libjvm.so" := by decide

/-- C8: the build order of the espresso reference graph is the fixed list
`espressoBuildOrder` (the pure function returns it on every run), it is a
valid topological order (it covers all nodes and every node appears after
all of its internal dependencies), and in particular classfile precedes
shared precedes espresso, and mokapot precedes native. -/
theorem build_order_topological_deterministic :
    buildOrder referenceGraph = some espressoBuildOrder ∧
    topoRespects referenceGraph espressoBuildOrder = true ∧
    coversNodes referenceGraph espressoBuildOrder = true ∧
    idxOf "com.oracle.truffle.espresso.classfile" espressoBuildOrder <
      idxOf "com.oracle.truffle.espresso.shared" espressoBuildOrder ∧
    idxOf "com.oracle.truffle.espresso.shared" espressoBuildOrder <
      idxOf "com.oracle.truffle.espresso" espressoBuildOrder ∧
    idxOf "com.oracle.truffle.espresso.mokapot" espressoBuildOrder <
      idxOf "com.oracle.truffle.espresso.native" espressoBuildOrder :=
  ⟨buildOrder_referenceGraph_eq, topoRespects_espresso, by decide, by decide,
   by decide, by decide⟩

/-- C9: `ESPRESSO_LIBS_DIR` is platform-scoped and its declared manifest
entries sit at `<distribution-root>/sha256` and `<distribution-root>/files`
for the root `META-INF/resources/java/espresso-libs/<os>/<arch>`; after
platform substitution for `(linux, amd64)` these are the concrete paths of
the claim. -/
theorem libsdir_manifest_locations :
    (∃ root, espressoLibsDirDist.hashEntry = some (manifestLocations root).1 ∧
      espressoLibsDirDist.fileListEntry = some (manifestLocations root).2) ∧
    espressoLibsDirDist.platformDependent = true ∧
    substPlatform "META-INF/resources/java/espresso-libs/<os>/<arch>/sha256"
        "linux" "amd64" =
      "META-INF/resources/java/espresso-libs/linux/amd64/sha256" ∧
    substPlatform "META-INF/resources/java/espresso-libs/<os>/<arch>/files"
        "linux" "amd64" =
      "META-INF/resources/java/espresso-libs/linux/amd64/files" := by
  exact ⟨⟨"META-INF/resources/java/espresso-libs/<os>/<arch>", by decide,
    by decide⟩, rfl, by decide, by decide⟩

/-- C10: in all five `os_arch` tables of the manifest every OS-level branch
has exactly the wildcard `"<others>"` as its only arch key; consequently,
whenever stage one selects a branch, stage two succeeds (the two stages
succeed or fail together) and the resolution result does not depend on the
queried architecture string. -/
theorem os_arch_single_wildcard_arch :
    wildcardOnlyArches nativeOsArch = true ∧
    wildcardOnlyArches edenOsArch = true ∧
    wildcardOnlyArches mokapotOsArch = true ∧
    wildcardOnlyArches espressoLibsDirOsArch = true ∧
    wildcardOnlyArches espressoSupportOsArch = true ∧
    (∀ os arch, (selectLeaf nativeOsArch os arch).isSome =
      (selectBranch nativeOsArch os).isSome) ∧
    (∀ os arch, (selectLeaf edenOsArch os arch).isSome =
      (selectBranch edenOsArch os).isSome) ∧
    (∀ os arch, (selectLeaf mokapotOsArch os arch).isSome =
      (selectBranch mokapotOsArch os).isSome) ∧
    (∀ os arch, (selectLeaf espressoLibsDirOsArch os arch).isSome =
      (selectBranch espressoLibsDirOsArch os).isSome) ∧
    (∀ os arch, (selectLeaf espressoSupportOsArch os arch).isSome =
      (selectBranch espressoSupportOsArch os).isSome) ∧
    (∀ os a1 a2, resolve nativeOsArch os a1 = resolve nativeOsArch os a2) ∧
    (∀ os a1 a2, resolve edenOsArch os a1 = resolve edenOsArch os a2) ∧
    (∀ os a1 a2, resolve mokapotOsArch os a1 = resolve mokapotOsArch os a2) ∧
    (∀ os a1 a2, resolve espressoLibsDirOsArch os a1 =
      resolve espressoLibsDirOsArch os a2) ∧
    (∀ os a1 a2, resolve espressoSupportOsArch os a1 =
      resolve espressoSupportOsArch os a2) :=
  ⟨by decide, by decide, by decide, by decide, by decide,
   selectLeaf_isSome_eq (by decide), selectLeaf_isSome_eq (by decide),
   selectLeaf_isSome_eq (by decide), selectLeaf_isSome_eq (by decide),
   selectLeaf_isSome_eq (by decide),
   resolve_arch_independent (by decide), resolve_arch_independent (by decide),
   resolve_arch_independent (by decide), resolve_arch_independent (by decide),
   resolve_arch_independent (by decide)⟩

end Espresso
